import Mathlib

/-!
Verification development for the Legal_MAD multi-agent-debate core
(`src/agents/debater_experimental.py`, `src/agents/judge_experimental.py`).

The Python code manipulates JSON-like dictionaries returned by an external
reasoning collaborator (`GroqClient.generate_json`).  We embed those values as
a mutual inductive `Json` / `JsonArr` / `Dict`, embed the Python dictionary
operations used by the code (`in`, `[]`, `.get(k, default)`, truthiness,
chained `.get` that can fail with AttributeError on a non-dict), and translate
the `Debater` and `Judge` methods into state-passing Lean functions.  Each
`raise ValueError(...)` site in the source becomes one constructor of `Err`;
the spec classifies those sites into SchemaError / SequenceError /
ConsistencyError, which we mirror with the `Err.isSchemaError` /
`Err.isSequenceError` / `Err.isConsistencyError` classifiers.  The two IRAC
Debater methods import their prompt builders from `src.agents.prompts`, a
module that does not define them (only `prompts_experimental.py` does), so in
the given source those method-local imports raise ImportError; the embedding
models that failure faithfully (`Err.pyImportError`) instead of the dead
validation code below the import.

Prompt construction (`src/agents/prompts_experimental.py`,
`src/agents/prompts.py`) is pure string templating whose text is never
inspected by the core logic; we represent a built prompt as a structured
`Prompt` value carrying exactly the arguments the Python code passes to the
corresponding builder, and the collaborator consumes that value.  Every method
also returns the list of prompts it sent to the collaborator during the call,
so that "no collaborator call was made" is expressible.
-/

namespace LegalMAD

mutual

/-- JSON-like values produced by the reasoning collaborator (parsed JSON:
null, numbers, strings, arrays, objects). -/
inductive Json where
  | null : Json
  | num : Int → Json
  | str : String → Json
  | arr : JsonArr → Json
  | obj : Dict → Json
deriving DecidableEq, Repr

/-- A JSON array (list of JSON values). -/
inductive JsonArr where
  | nil : JsonArr
  | cons : Json → JsonArr → JsonArr
deriving DecidableEq, Repr

/-- A JSON object / Python dict: a finite sequence of string-keyed fields. -/
inductive Dict where
  | nil : Dict
  | cons : String → Json → Dict → Dict
deriving DecidableEq, Repr

end

/-- Lookup of a key in a dict (Python `d[k]` / the key side of `k in d`). -/
def Dict.lookup : Dict → String → Option Json
  | .nil, _ => none
  | .cons k v tl, key => if k = key then some v else Dict.lookup tl key

/-- Python `k in d` for a dict `d`. -/
def Dict.hasKey (d : Dict) (k : String) : Bool :=
  (d.lookup k).isSome

/-- Python `d.get(k, default)` for a dict `d`. -/
def Dict.getD (d : Dict) (k : String) (dflt : Json) : Json :=
  (d.lookup k).getD dflt

/-- Does the list of characters `s` start with `sub`? -/
def charsStartWith : List Char → List Char → Bool
  | _, [] => true
  | [], _ :: _ => false
  | c :: cs, d :: ds => decide (c = d) && charsStartWith cs ds

/-- Python substring test `sub in s` for strings. -/
def strContainsSub (s sub : String) : Bool :=
  (List.range (s.toList.length + 1)).any fun i =>
    charsStartWith (s.toList.drop i) sub.toList

/-- Python element test `v in xs` for a list value. -/
def JsonArr.elem : JsonArr → Json → Bool
  | .nil, _ => false
  | .cons h t, v => decide (h = v) || JsonArr.elem t v

/-- Errors of the embedded code.  The first group mirrors, one constructor per
`raise ValueError(...)` site, the failures of `debater_experimental.py` and
`judge_experimental.py` (carrying the data interpolated into the message);
note that the four constructors for the IRAC debater validation sites
(`debater_experimental.py` 133, 140, 181, 188) are unreachable in the given
source, see `Debater.generate_opening_irac`.  The last three model the
dynamic failures Python itself raises when `.get` is called on a non-dict
value (AttributeError), when `in` is applied to a non-container value
(TypeError), and when a from-import names a symbol its module does not
define (ImportError). -/
inductive Err where
  | invalidDebaterResponse (response : Dict)
  | openingRequired
  | invalidRebuttalResponse (response : Dict)
  | invalidIracDebaterResponse (response : Dict)
  | missingIracComponent (key : String) (response : Dict)
  | invalidIracRebuttalResponse (response : Dict)
  | missingRebuttalComponent (key : String) (response : Dict)
  | invalidJudgeResponse (response : Dict)
  | invalidDecisionChoice (decision : Json)
  | invalidJudgeIracResponse (response : Dict)
  | missingSynthesis (response : Dict)
  | missingSynthesisComponent (key : String) (response : Dict)
  | invalidJudgeHybridResponse (response : Dict)
  | decisionMismatch (side : String) (decision : Json) (position : Json)
  | pyAttributeError
  | pyTypeError
  | pyImportError
deriving DecidableEq, Repr

/-- Spec classification (spec section 7): SchemaError is a missing or invalidly
shaped field in the collaborator output. -/
def Err.isSchemaError : Err → Bool
  | .invalidDebaterResponse _ => true
  | .invalidRebuttalResponse _ => true
  | .invalidIracDebaterResponse _ => true
  | .missingIracComponent _ _ => true
  | .invalidIracRebuttalResponse _ => true
  | .missingRebuttalComponent _ _ => true
  | .invalidJudgeResponse _ => true
  | .invalidDecisionChoice _ => true
  | .invalidJudgeIracResponse _ => true
  | .missingSynthesis _ => true
  | .missingSynthesisComponent _ _ => true
  | .invalidJudgeHybridResponse _ => true
  | _ => false

/-- Spec classification (spec section 7): SequenceError is an operation invoked
before its precondition phase. -/
def Err.isSequenceError : Err → Bool
  | .openingRequired => true
  | _ => false

/-- Spec classification (spec section 7): ConsistencyError is the
hybrid-variant decision disagreeing with the declared winner position. -/
def Err.isConsistencyError : Err → Bool
  | .decisionMismatch _ _ _ => true
  | _ => false

/-- Python `in` applied to an arbitrary value: key test on dicts, substring
test on strings, element test on lists, TypeError otherwise. -/
def Json.pyContains : Json → String → Except Err Bool
  | .obj o, k => .ok (o.hasKey k)
  | .str s, k => .ok (strContainsSub s k)
  | .arr xs, k => .ok (xs.elem (.str k))
  | _, _ => .error .pyTypeError

/-- Python `j.get(k, default)` on an arbitrary value: only dicts have `.get`,
anything else raises AttributeError. -/
def Json.pyGetD : Json → String → Json → Except Err Json
  | .obj o, k, dflt => .ok (o.getD k dflt)
  | _, _, _ => .error .pyAttributeError

/-- Python truthiness of the `opening_argument` attribute (`None` and the
empty dict are falsy, every non-empty dict is truthy). -/
def pyTruthyObj : Option Dict → Bool
  | none => false
  | some .nil => false
  | some (.cons _ _ _) => true

/-- The source loop `for key in required_keys: if key not in m: raise mk key`
(`judge_experimental.py` 114-116; also written, unreachably, at
`debater_experimental.py` 138-140 and 186-188): checks the keys in order and
fails at the first one not contained in `m`, propagating a TypeError when
`in` is not applicable to `m`. -/
def checkKeysIn (keys : List String) (m : Json) (mk : String → Err) :
    Except Err Unit :=
  match keys with
  | [] => .ok ()
  | k :: ks =>
      match m.pyContains k with
      | .error e => .error e
      | .ok true => checkKeysIn ks m mk
      | .ok false => .error (mk k)

/-- A prompt built by one of the template functions of
`src/agents/prompts_experimental.py` / `src/agents/prompts.py`.  Each
constructor records which builder was called and the exact arguments the
Debater / Judge methods pass to it; the pure string templating applied to
those arguments is irrelevant to the core logic, which never inspects the
resulting text.  The two IRAC debater constructors correspond to builders
the given source never successfully imports, so no method emits them. -/
inductive Prompt where
  | debaterOpening (question prompt_context : String) (choices : List String)
      (position : Option String)
  | debaterRebuttal (question prompt_context : String) (my_position : Option Json)
      (my_opening : Option Dict) (opponent_opening : Dict)
  | debaterOpeningIrac (question prompt_context : String) (choices : List String)
      (position : Option String)
  | debaterRebuttalIrac (question prompt_context : String) (my_position : Option Json)
      (my_opening : Option Dict) (opponent_opening : Dict)
  | judgeDecision (question prompt_context : String) (choices : List String)
      (debate_history : Dict)
  | judgeDecisionIrac (question prompt_context : String) (choices : List String)
      (debate_history : Dict)
  | judgeDecisionHybrid (question prompt_context : String) (choices : List String)
      (debate_history : Dict)

/-- Modelled from the spec: the reasoning collaborator
(`src/utils/api_client_experimental.py` is not part of the given sources).
Per spec section 6 it is `generate_structured(prompt, max_output_tokens) →
structured JSON-like mapping`: a pure request/response exchange, prompt in,
structured JSON out.  We model it as a deterministic response function. -/
structure GroqClient where
  respond : Prompt → Nat → Dict

/-- Modelled from the spec: `client.generate_json(prompt, max_tokens)` returns
the collaborator structured output for that prompt. -/
def GroqClient.generate_json (c : GroqClient) (prompt : Prompt)
    (max_tokens : Nat) : Dict :=
  c.respond prompt max_tokens

/-- The `Debater` class state: `self.client`, `self.name`, `self.position`
(initially `None`), `self.opening_argument` (initially `None`). -/
structure Debater where
  client : GroqClient
  name : String
  position : Option Json
  opening_argument : Option Dict

/-- `Debater.__init__(client, name)`. -/
def Debater.mkNew (client : GroqClient) (name : String) : Debater :=
  { client := client, name := name, position := none, opening_argument := none }

/-- The four valid decision labels A, B, C, D (as JSON strings). -/
def validLabels : List Json :=
  [Json.str "A", Json.str "B", Json.str "C", Json.str "D"]

/-- `Debater.generate_opening` (`debater_experimental.py` 26-61): call the
collaborator on the opening prompt, fail unless both `position` and
`argument` keys are present, otherwise store position and opening and return
the response.  Result: updated debater, prompts sent, and the returned value
or error. -/
def Debater.generate_opening (d : Debater) (question prompt_context : String)
    (choices : List String) (position : Option String) :
    Debater × List Prompt × Except Err Dict :=
  let prompt := Prompt.debaterOpening question prompt_context choices position
  let response := d.client.generate_json prompt 750
  if !(response.hasKey "position") || !(response.hasKey "argument") then
    (d, [prompt], .error (.invalidDebaterResponse response))
  else
    ({ d with position := some (response.getD "position" .null),
              opening_argument := some response },
     [prompt], .ok response)

/-- `Debater.generate_rebuttal` (`debater_experimental.py` 63-97): fail when
`self.opening_argument` is falsy, before any collaborator call; otherwise
call the collaborator and fail unless `rebuttal` is present. -/
def Debater.generate_rebuttal (d : Debater) (question prompt_context : String)
    (opponent_opening : Dict) : Debater × List Prompt × Except Err Dict :=
  if !(pyTruthyObj d.opening_argument) then
    (d, [], .error .openingRequired)
  else
    let prompt := Prompt.debaterRebuttal question prompt_context d.position
      d.opening_argument opponent_opening
    let response := d.client.generate_json prompt 650
    if !(response.hasKey "rebuttal") then
      (d, [prompt], .error (.invalidRebuttalResponse response))
    else
      (d, [prompt], .ok response)

/-- `Debater.generate_opening_irac` (`debater_experimental.py` 101-145): its
first statement (line 120) is `from src.agents.prompts import
get_debater_opening_prompt_irac`, but `src/agents/prompts.py` defines only
the three vanilla builders — the IRAC builders live in
`prompts_experimental.py` — so every call raises ImportError before a prompt
is built or the collaborator is contacted, with the Debater state untouched;
the prompt construction, schema validations and state assignments further
down (lines 122-145) are unreachable in the given source. -/
def Debater.generate_opening_irac (d : Debater)
    (_question _prompt_context : String) (_choices : List String)
    (_position : Option String) : Debater × List Prompt × Except Err Dict :=
  (d, [], .error .pyImportError)

/-- `Debater.generate_rebuttal_irac` (`debater_experimental.py` 147-190): the
sequencing guard at lines 164-165 fires first when no opening is stored;
otherwise the next statement (line 167) is `from src.agents.prompts import
get_debater_rebuttal_prompt_irac`, a symbol `src/agents/prompts.py` does not
define, so the call raises ImportError before any collaborator call; the
prompt construction and rebuttal validations (lines 169-188) are unreachable
in the given source.  Neither path touches the Debater state. -/
def Debater.generate_rebuttal_irac (d : Debater)
    (_question _prompt_context : String) (_opponent_opening : Dict) :
    Debater × List Prompt × Except Err Dict :=
  if !(pyTruthyObj d.opening_argument) then
    (d, [], .error .openingRequired)
  else
    (d, [], .error .pyImportError)

/-- The `Judge` class state: only `self.client`. -/
structure Judge where
  client : GroqClient

/-- `Judge.make_decision` (`judge_experimental.py` 22-62): call the
collaborator on the decision prompt, fail unless `decision` is present and is
one of the four labels, and return the response. -/
def Judge.make_decision (j : Judge) (question prompt_context : String)
    (choices : List String) (debate_history : Dict) :
    Judge × List Prompt × Except Err Dict :=
  let prompt := Prompt.judgeDecision question prompt_context choices debate_history
  let response := j.client.generate_json prompt 800
  if !(response.hasKey "decision") then
    (j, [prompt], .error (.invalidJudgeResponse response))
  else if !(validLabels.contains (response.getD "decision" .null)) then
    (j, [prompt], .error (.invalidDecisionChoice (response.getD "decision" .null)))
  else
    (j, [prompt], .ok response)

/-- `Judge.make_decision_irac` (`judge_experimental.py` 66-118): like the
vanilla decision, then additionally requires `synthesis` and each of the four
IRAC components inside the synthesis value (default empty dict). -/
def Judge.make_decision_irac (j : Judge) (question prompt_context : String)
    (choices : List String) (debate_history : Dict) :
    Judge × List Prompt × Except Err Dict :=
  let prompt := Prompt.judgeDecisionIrac question prompt_context choices debate_history
  let response := j.client.generate_json prompt 1000
  if !(response.hasKey "decision") then
    (j, [prompt], .error (.invalidJudgeIracResponse response))
  else if !(validLabels.contains (response.getD "decision" .null)) then
    (j, [prompt], .error (.invalidDecisionChoice (response.getD "decision" .null)))
  else if !(response.hasKey "synthesis") then
    (j, [prompt], .error (.missingSynthesis response))
  else
    let synthesis := response.getD "synthesis" (.obj .nil)
    match checkKeysIn ["issue", "rule", "application", "conclusion"] synthesis
        (fun k => .missingSynthesisComponent k response) with
    | .error e => (j, [prompt], .error e)
    | .ok _ => (j, [prompt], .ok response)

/-- `Judge.make_decision_hybrid` (`judge_experimental.py` 120-176): validates
the decision label like the vanilla variant, then reads
the winner value of the response (default empty string) and the two debater
positions via the chained get lookups on the debate history, and
fails when the winner names a debater whose stored position differs from the
decision; otherwise returns the response. -/
def Judge.make_decision_hybrid (j : Judge) (question prompt_context : String)
    (choices : List String) (debate_history : Dict) :
    Judge × List Prompt × Except Err Dict :=
  let prompt := Prompt.judgeDecisionHybrid question prompt_context choices debate_history
  let response := j.client.generate_json prompt 1000
  let result : Except Err Dict :=
    if !(response.hasKey "decision") then
      .error (.invalidJudgeHybridResponse response)
    else if !(validLabels.contains (response.getD "decision" .null)) then
      .error (.invalidDecisionChoice (response.getD "decision" .null))
    else
      let winner := response.getD "winner" (.str "")
      match (debate_history.getD "debater_x" (.obj .nil)).pyGetD
          "opening" (.obj .nil) with
      | .error e => .error e
      | .ok x_opening =>
        match x_opening.pyGetD "position" (.str "") with
        | .error e => .error e
        | .ok debater_x_pos =>
          match (debate_history.getD "debater_y" (.obj .nil)).pyGetD
              "opening" (.obj .nil) with
          | .error e => .error e
          | .ok y_opening =>
            match y_opening.pyGetD "position" (.str "") with
            | .error e => .error e
            | .ok debater_y_pos =>
              if winner = .str "debater_x" ∧
                  response.getD "decision" .null ≠ debater_x_pos then
                .error (.decisionMismatch "debater_x"
                  (response.getD "decision" .null) debater_x_pos)
              else if winner = .str "debater_y" ∧
                  response.getD "decision" .null ≠ debater_y_pos then
                .error (.decisionMismatch "debater_y"
                  (response.getD "decision" .null) debater_y_pos)
              else
                .ok response
  (j, [prompt], result)

/-! ### Concrete fixtures used by witnesses and counterexamples -/

/-- A collaborator that returns the same structured response to every
prompt. -/
def constClient (resp : Dict) : GroqClient := ⟨fun _ _ => resp⟩

/-- Transcript in which debater_x defends position A and debater_y defends
position B. -/
def tXY : Dict :=
  .cons "debater_x"
    (.obj (.cons "opening" (.obj (.cons "position" (.str "A") .nil)) .nil))
    (.cons "debater_y"
      (.obj (.cons "opening" (.obj (.cons "position" (.str "B") .nil)) .nil))
      .nil)

/-- Hybrid decision payload naming debater_x as winner with decision B. -/
def respWinXDecB : Dict :=
  .cons "winner" (.str "debater_x") (.cons "decision" (.str "B") .nil)

/-- Hybrid decision payload naming debater_x as winner with decision A. -/
def respWinXDecA : Dict :=
  .cons "winner" (.str "debater_x") (.cons "decision" (.str "A") .nil)

/-- Hybrid decision payload with winner tie and decision C. -/
def respWinTie : Dict :=
  .cons "winner" (.str "tie") (.cons "decision" (.str "C") .nil)

/-- Decision payload with a valid decision label and nothing else. -/
def respDecOnly : Dict := .cons "decision" (.str "A") .nil

/-- Opening response carrying position B (with an argument). -/
def respPosB : Dict :=
  .cons "position" (.str "B") (.cons "argument" (.str "arg") .nil)

/-- Opening response carrying position A (with an argument). -/
def respPosA : Dict :=
  .cons "position" (.str "A") (.cons "argument" (.str "arg") .nil)

/-- Opening response with a position but no argument. -/
def respPosOnly : Dict := .cons "position" (.str "A") .nil

/-- A complete IRAC mapping. -/
def iracFull : Dict :=
  .cons "issue" (.str "i")
    (.cons "rule" (.str "r")
      (.cons "application" (.str "a")
        (.cons "conclusion" (.str "c") .nil)))

/-- Remove every field with the given key from a dict. -/
def Dict.filterKey : Dict → String → Dict
  | .nil, _ => .nil
  | .cons k v tl, key => if k = key then Dict.filterKey tl key
      else .cons k v (Dict.filterKey tl key)

/-- IRAC opening response whose irac mapping lacks the given component. -/
def respIracMissing (k : String) : Dict :=
  .cons "position" (.str "A") (.cons "irac" (.obj (iracFull.filterKey k)) .nil)

/-- IRAC judge payload with valid decision and complete synthesis. -/
def respJudgeIracOk : Dict :=
  .cons "decision" (.str "A") (.cons "synthesis" (.obj iracFull) .nil)

/-- A debater that already holds position A and an opening, wired to a
collaborator that returns an empty mapping. -/
def debKeepA : Debater :=
  { client := constClient Dict.nil, name := "DebaterX",
    position := some (Json.str "A"), opening_argument := some respPosA }

/-! ### Helper lemmas -/

/-- The vanilla rebuttal returns the debater record unchanged in every
branch. -/
theorem generate_rebuttal_state_id (d : Debater) (q pc : String) (opp : Dict) :
    (d.generate_rebuttal q pc opp).1 = d := by
  simp only [Debater.generate_rebuttal]
  split
  · rfl
  · split <;> rfl

/-- The IRAC rebuttal returns the debater record unchanged in every branch. -/
theorem generate_rebuttal_irac_state_id (d : Debater) (q pc : String)
    (opp : Dict) : (d.generate_rebuttal_irac q pc opp).1 = d := by
  simp only [Debater.generate_rebuttal_irac]
  split <;> rfl

/-- A failing Python `in` test is always the TypeError case. -/
theorem pyContains_error (m : Json) (k : String) (e : Err)
    (h : m.pyContains k = .error e) : e = .pyTypeError := by
  cases m <;> simp [Json.pyContains] at h <;> exact h.symm

/-- On a dict, the required-keys loop succeeds when every key is present. -/
theorem checkKeysIn_obj_ok (ks : List String) (o : Dict) (mk : String → Err)
    (h : ∀ k ∈ ks, o.hasKey k = true) :
    checkKeysIn ks (Json.obj o) mk = .ok () := by
  induction ks with
  | nil => rfl
  | cons k ks ih =>
      have hk := h k (by simp)
      simp only [checkKeysIn, Json.pyContains, hk]
      exact ih fun k' hk' => h k' (by simp [hk'])

/-- On a dict, the required-keys loop fails at some listed missing key when
one of the keys is absent. -/
theorem checkKeysIn_obj_missing (ks : List String) (o : Dict)
    (mk : String → Err) (h : ∃ k ∈ ks, o.hasKey k = false) :
    ∃ k ∈ ks, o.hasKey k = false ∧
      checkKeysIn ks (Json.obj o) mk = .error (mk k) := by
  induction ks with
  | nil => simp at h
  | cons k ks ih =>
      cases hk : o.hasKey k with
      | false =>
          exact ⟨k, by simp, hk, by simp [checkKeysIn, Json.pyContains, hk]⟩
      | true =>
          obtain ⟨k', hk', hf⟩ := h
          have h' : ∃ k'' ∈ ks, o.hasKey k'' = false := by
            rcases List.mem_cons.mp hk' with rfl | hmem
            · rw [hk] at hf; cases hf
            · exact ⟨k', hmem, hf⟩
          obtain ⟨k'', hm, hf', heq⟩ := ih h'
          exact ⟨k'', by simp [hm], hf',
            by simp [checkKeysIn, Json.pyContains, hk, heq]⟩

/-- Every error of the required-keys loop is either the error made from one
of the listed keys or the TypeError from a non-container value. -/
theorem checkKeysIn_error_cases (ks : List String) (m : Json)
    (mk : String → Err) (e : Err) (h : checkKeysIn ks m mk = .error e) :
    (∃ k ∈ ks, e = mk k) ∨ e = .pyTypeError := by
  induction ks with
  | nil => simp [checkKeysIn] at h
  | cons k ks ih =>
      simp only [checkKeysIn] at h
      cases hc : m.pyContains k with
      | error e2 =>
          rw [hc] at h
          simp only [Except.error.injEq] at h
          exact .inr (h ▸ pyContains_error m k e2 hc)
      | ok b =>
          rw [hc] at h
          cases b with
          | true =>
              rcases ih h with ⟨k', hm, he⟩ | ht
              · exact .inl ⟨k', by simp [hm], he⟩
              · exact .inr ht
          | false =>
              simp only [Except.error.injEq] at h
              exact .inl ⟨k, by simp, h.symm⟩

/-! ### Claims -/

/-- C3: for every Debater on which no opening-generation call has succeeded —
equivalently, whose `opening_argument` is still `None`, this being the
initial value set by the constructor and left unchanged by failed opening
calls — every rebuttal-generation call (vanilla and IRAC) returns the
debater unchanged, sends no prompt to the reasoning collaborator (empty
prompt trace), and fails with the SequenceError raise site
("Must generate opening argument before rebuttal"). -/
theorem C3_rebuttal_before_opening (d : Debater) (q pc : String) (opp : Dict)
    (h : d.opening_argument = none) :
    d.generate_rebuttal q pc opp = (d, [], .error .openingRequired) ∧
    d.generate_rebuttal_irac q pc opp = (d, [], .error .openingRequired) ∧
    Err.openingRequired.isSequenceError = true := by
  refine ⟨?_, ?_, rfl⟩
  · simp [Debater.generate_rebuttal, h, pyTruthyObj]
  · simp [Debater.generate_rebuttal_irac, h, pyTruthyObj]

/-- C3 witness: a freshly constructed Debater has no opening, and its vanilla
rebuttal call fails with the SequenceError without touching state. -/
theorem C3_rebuttal_before_opening_witness :
    (Debater.mkNew (constClient respPosA) "DebaterX").opening_argument = none ∧
    (Debater.mkNew (constClient respPosA) "DebaterX").generate_rebuttal
        "q" "ctx" Dict.nil =
      (Debater.mkNew (constClient respPosA) "DebaterX", [],
        .error .openingRequired) :=
  ⟨rfl, (C3_rebuttal_before_opening _ "q" "ctx" Dict.nil rfl).1⟩

/-- C6: both rebuttal-generation variants leave the Debater stored `position`
and `opening_argument` unchanged, for every debater state and every input;
among the Debater operations only the two opening-generation calls assign
those fields. -/
theorem C6_rebuttal_preserves_debater_fields (d : Debater) (q pc : String)
    (opp : Dict) :
    ((d.generate_rebuttal q pc opp).1.position = d.position ∧
     (d.generate_rebuttal q pc opp).1.opening_argument = d.opening_argument) ∧
    ((d.generate_rebuttal_irac q pc opp).1.position = d.position ∧
     (d.generate_rebuttal_irac q pc opp).1.opening_argument =
       d.opening_argument) := by
  rw [generate_rebuttal_state_id, generate_rebuttal_irac_state_id]
  exact ⟨⟨rfl, rfl⟩, ⟨rfl, rfl⟩⟩

/-- C7: the vanilla decision operation is stateless and deterministic — the
Judge record it returns is the input Judge (the method reads `self.client`
and assigns nothing), and with the collaborator modelled per the spec as a
deterministic prompt-to-JSON function, a second call on the returned Judge
with identical transcript, question, context and choices produces the
identical result (same prompts, same JudgeDecision payload). -/
theorem C7_decide_stateless_deterministic (j : Judge) (q pc : String)
    (ch : List String) (t : Dict) :
    (j.make_decision q pc ch t).1 = j ∧
    (j.make_decision q pc ch t).1.make_decision q pc ch t =
      j.make_decision q pc ch t := by
  have h : (j.make_decision q pc ch t).1 = j := by
    simp only [Judge.make_decision]
    split
    · rfl
    · split <;> rfl
  exact ⟨h, by rw [h]⟩

/-- C8: the opening-generation operations are atomic on failure — whenever
the vanilla or IRAC opening call returns an error, the Debater stored
`position` and `opening_argument` are exactly as before the call (in the
vanilla variant validation completes before any assignment in the source; in
the IRAC variant every call fails at the method-local import before any
work, which likewise touches nothing). -/
theorem C8_opening_atomic_on_failure (d : Debater) (q pc : String)
    (ch : List String) (pos : Option String) :
    (∀ e, (d.generate_opening q pc ch pos).2.2 = .error e →
      (d.generate_opening q pc ch pos).1.position = d.position ∧
      (d.generate_opening q pc ch pos).1.opening_argument =
        d.opening_argument) ∧
    (∀ e, (d.generate_opening_irac q pc ch pos).2.2 = .error e →
      (d.generate_opening_irac q pc ch pos).1.position = d.position ∧
      (d.generate_opening_irac q pc ch pos).1.opening_argument =
        d.opening_argument) := by
  constructor
  · intro e he
    simp only [Debater.generate_opening, GroqClient.generate_json] at he ⊢
    cases hc : (!(Dict.hasKey (d.client.respond
        (Prompt.debaterOpening q pc ch pos) 750) "position") ||
        !(Dict.hasKey (d.client.respond
        (Prompt.debaterOpening q pc ch pos) 750) "argument")) with
    | true => simp [hc]
    | false => simp [hc] at he
  · exact fun e _ => ⟨rfl, rfl⟩

/-- C8 witness: with a collaborator returning an empty mapping, the opening
call fails and a debater that already held position A keeps its stored
fields. -/
theorem C8_opening_atomic_on_failure_witness :
    ((debKeepA.generate_opening "q" "ctx" [] none).2.2 =
      .error (.invalidDebaterResponse Dict.nil)) ∧
    ((debKeepA.generate_opening "q" "ctx" [] none).1.position =
      some (Json.str "A")) :=
  ⟨rfl, ((C8_opening_atomic_on_failure debKeepA "q" "ctx" [] none).1
    (.invalidDebaterResponse Dict.nil) rfl).1⟩

/-- C10: the vanilla opening fails with a SchemaError whenever the
collaborator response contains `position` but lacks the `argument` key. -/
theorem C10_vanilla_opening_requires_argument (d : Debater) (q pc : String)
    (ch : List String) (pos : Option String) (resp : Dict)
    (hresp : d.client.respond (Prompt.debaterOpening q pc ch pos) 750 = resp)
    (hp : resp.hasKey "position" = true)
    (ha : resp.hasKey "argument" = false) :
    (d.generate_opening q pc ch pos).2.2 =
      .error (.invalidDebaterResponse resp) ∧
    (Err.invalidDebaterResponse resp).isSchemaError = true := by
  refine ⟨?_, rfl⟩
  simp [Debater.generate_opening, GroqClient.generate_json, hresp, hp, ha]

/-- C1: hybrid decision consistency — when the transcript stores opening
positions for debater_x and debater_y (the chained `.get` lookups succeed
with positions `px`, `py`) and the decision payload carries a valid decision
label, then: naming winner debater_x (resp. debater_y) with a decision
different from that debater position fails at the ConsistencyError raise
site, and a decision equal to the named winner position succeeds and returns
the payload. -/
theorem C1_hybrid_decision_consistency
    (j : Judge) (q pc : String) (ch : List String) (t : Dict)
    (resp : Dict) (xo yo px py : Json)
    (hresp : j.client.respond (Prompt.judgeDecisionHybrid q pc ch t) 1000 = resp)
    (hx1 : (t.getD "debater_x" (Json.obj .nil)).pyGetD "opening"
      (Json.obj .nil) = .ok xo)
    (hx2 : xo.pyGetD "position" (Json.str "") = .ok px)
    (hy1 : (t.getD "debater_y" (Json.obj .nil)).pyGetD "opening"
      (Json.obj .nil) = .ok yo)
    (hy2 : yo.pyGetD "position" (Json.str "") = .ok py)
    (hdec : resp.hasKey "decision" = true)
    (hval : validLabels.contains (resp.getD "decision" Json.null) = true) :
    (resp.getD "winner" (Json.str "") = Json.str "debater_x" →
      resp.getD "decision" Json.null ≠ px →
      (j.make_decision_hybrid q pc ch t).2.2 =
        .error (.decisionMismatch "debater_x"
          (resp.getD "decision" Json.null) px)) ∧
    (resp.getD "winner" (Json.str "") = Json.str "debater_x" →
      resp.getD "decision" Json.null = px →
      (j.make_decision_hybrid q pc ch t).2.2 = .ok resp) ∧
    (resp.getD "winner" (Json.str "") = Json.str "debater_y" →
      resp.getD "decision" Json.null ≠ py →
      (j.make_decision_hybrid q pc ch t).2.2 =
        .error (.decisionMismatch "debater_y"
          (resp.getD "decision" Json.null) py)) ∧
    (resp.getD "winner" (Json.str "") = Json.str "debater_y" →
      resp.getD "decision" Json.null = py →
      (j.make_decision_hybrid q pc ch t).2.2 = .ok resp) := by
  have hmem : resp.getD "decision" Json.null ∈ validLabels := by
    simpa using hval
  refine ⟨fun hw hd => ?_, fun hw hd => ?_, fun hw hd => ?_, fun hw hd => ?_⟩ <;>
    simp [Judge.make_decision_hybrid, GroqClient.generate_json, hresp, hdec,
      hval, hx1, hx2, hy1, hy2, hw, hd] <;>
    first
      | exact hmem
      | exact hd ▸ hmem

/-- C1 witness: on the transcript with positions A and B, the payload naming
winner debater_x with decision B fails with the ConsistencyError, and the
payload naming winner debater_x with decision A succeeds. -/
theorem C1_hybrid_decision_consistency_witness :
    ((Judge.mk (constClient respWinXDecB)).make_decision_hybrid
        "q" "ctx" [] tXY).2.2 =
      .error (.decisionMismatch "debater_x" (Json.str "B") (Json.str "A")) ∧
    ((Judge.mk (constClient respWinXDecA)).make_decision_hybrid
        "q" "ctx" [] tXY).2.2 = .ok respWinXDecA :=
  ⟨(C1_hybrid_decision_consistency (Judge.mk (constClient respWinXDecB))
      "q" "ctx" [] tXY respWinXDecB
      (Json.obj (.cons "position" (.str "A") .nil))
      (Json.obj (.cons "position" (.str "B") .nil))
      (Json.str "A") (Json.str "B") rfl rfl rfl rfl rfl rfl rfl).1
      rfl (by decide),
   ((C1_hybrid_decision_consistency (Judge.mk (constClient respWinXDecA))
      "q" "ctx" [] tXY respWinXDecA
      (Json.obj (.cons "position" (.str "A") .nil))
      (Json.obj (.cons "position" (.str "B") .nil))
      (Json.str "A") (Json.str "B") rfl rfl rfl rfl rfl rfl rfl).2.1
      rfl rfl)⟩

/-- C9: the hybrid decision checks consistency only when the winner field is
exactly the string debater_x or debater_y — for every payload with a valid
decision label whose winner value is anything else (absent, defaulting to the
empty string, or tie, or any other value), given a transcript whose chained
opening lookups succeed, the call returns the payload with no error and no
membership validation of the winner value. -/
theorem C9_hybrid_winner_not_validated
    (j : Judge) (q pc : String) (ch : List String) (t : Dict)
    (resp : Dict) (xo yo px py : Json)
    (hresp : j.client.respond (Prompt.judgeDecisionHybrid q pc ch t) 1000 = resp)
    (hx1 : (t.getD "debater_x" (Json.obj .nil)).pyGetD "opening"
      (Json.obj .nil) = .ok xo)
    (hx2 : xo.pyGetD "position" (Json.str "") = .ok px)
    (hy1 : (t.getD "debater_y" (Json.obj .nil)).pyGetD "opening"
      (Json.obj .nil) = .ok yo)
    (hy2 : yo.pyGetD "position" (Json.str "") = .ok py)
    (hdec : resp.hasKey "decision" = true)
    (hval : validLabels.contains (resp.getD "decision" Json.null) = true)
    (hwx : resp.getD "winner" (Json.str "") ≠ Json.str "debater_x")
    (hwy : resp.getD "winner" (Json.str "") ≠ Json.str "debater_y") :
    (j.make_decision_hybrid q pc ch t).2.2 = .ok resp := by
  have hmem : resp.getD "decision" Json.null ∈ validLabels := by
    simpa using hval
  simp [Judge.make_decision_hybrid, GroqClient.generate_json, hresp, hdec,
    hval, hx1, hx2, hy1, hy2, hwx, hwy]
  exact hmem

/-- C9 witness: with winner tie and decision C (which matches neither stored
position), the hybrid call succeeds. -/
theorem C9_hybrid_winner_not_validated_witness :
    ((Judge.mk (constClient respWinTie)).make_decision_hybrid
        "q" "ctx" [] tXY).2.2 = .ok respWinTie :=
  C9_hybrid_winner_not_validated (Judge.mk (constClient respWinTie))
    "q" "ctx" [] tXY respWinTie
    (Json.obj (.cons "position" (.str "A") .nil))
    (Json.obj (.cons "position" (.str "B") .nil))
    (Json.str "A") (Json.str "B") rfl rfl rfl rfl rfl rfl rfl
    (by decide) (by decide)

/-- C4 (code evaluated at the failing input): in the given source every IRAC
opening call fails with ImportError at its first statement — line 120
imports a builder that its module does not define — before the collaborator
is contacted and with the Debater unchanged; the SchemaError validation the
claim describes is implemented exactly by the code at lines 131-140 but is
unreachable.  Shown for all inputs, and concretely for the collaborator
response whose irac mapping lacks the conclusion component. -/
theorem C4_irac_opening_import_error :
    (∀ (d : Debater) (q pc : String) (ch : List String) (pos : Option String),
      d.generate_opening_irac q pc ch pos = (d, [], .error .pyImportError)) ∧
    ((Debater.mkNew (constClient (respIracMissing "conclusion"))
        "DebaterX").generate_opening_irac "q" "ctx" [] (some "A")).2.2 =
      .error .pyImportError :=
  ⟨fun _ _ _ _ _ => rfl, rfl⟩

/-- C2 counterexample: the claim "the IRAC decision fails with a SchemaError
exactly when the decision field is absent or not one of the four labels" is
false — a payload whose decision is present and valid but which lacks
synthesis still fails (with another SchemaError, the missing-synthesis raise
site). -/
theorem C2_counterexample :
    ((Judge.mk (constClient respDecOnly)).make_decision_irac
        "q" "ctx" [] Dict.nil).2.2 = .error (.missingSynthesis respDecOnly) ∧
    respDecOnly.hasKey "decision" = true ∧
    validLabels.contains (respDecOnly.getD "decision" Json.null) = true ∧
    (Err.missingSynthesis respDecOnly).isSchemaError = true :=
  ⟨rfl, rfl, rfl, rfl⟩

/-- C2 (amended): the vanilla decision fails — always with a SchemaError and
never a consistency or sequence error — exactly when the payload decision
field is absent or not one of A, B, C, D, independently of the winner value
and of the transcript; the IRAC decision fails in those same two cases and
additionally when synthesis is absent or the synthesis mapping lacks one of
issue, rule, application, conclusion, succeeding when the decision is valid
and the synthesis mapping carries all four keys; neither variant performs a
winner/decision consistency check. -/
theorem C2_vanilla_irac_decision_validation
    (j : Judge) (q pc : String) (ch : List String) (t : Dict)
    (respV respI : Dict)
    (hV : j.client.respond (Prompt.judgeDecision q pc ch t) 800 = respV)
    (hI : j.client.respond (Prompt.judgeDecisionIrac q pc ch t) 1000 = respI) :
    (respV.hasKey "decision" = false →
      (j.make_decision q pc ch t).2.2 =
        .error (.invalidJudgeResponse respV)) ∧
    (respV.hasKey "decision" = true →
      validLabels.contains (respV.getD "decision" Json.null) = false →
      (j.make_decision q pc ch t).2.2 =
        .error (.invalidDecisionChoice (respV.getD "decision" Json.null))) ∧
    (respV.hasKey "decision" = true →
      validLabels.contains (respV.getD "decision" Json.null) = true →
      (j.make_decision q pc ch t).2.2 = .ok respV) ∧
    (∀ e, (j.make_decision q pc ch t).2.2 = .error e →
      e.isSchemaError = true ∧ e.isConsistencyError = false) ∧
    (respI.hasKey "decision" = false →
      (j.make_decision_irac q pc ch t).2.2 =
        .error (.invalidJudgeIracResponse respI)) ∧
    (respI.hasKey "decision" = true →
      validLabels.contains (respI.getD "decision" Json.null) = false →
      (j.make_decision_irac q pc ch t).2.2 =
        .error (.invalidDecisionChoice (respI.getD "decision" Json.null))) ∧
    (respI.hasKey "decision" = true →
      validLabels.contains (respI.getD "decision" Json.null) = true →
      respI.hasKey "synthesis" = false →
      (j.make_decision_irac q pc ch t).2.2 =
        .error (.missingSynthesis respI)) ∧
    (∀ s, respI.hasKey "decision" = true →
      validLabels.contains (respI.getD "decision" Json.null) = true →
      respI.lookup "synthesis" = some (Json.obj s) →
      (∀ k ∈ ["issue", "rule", "application", "conclusion"],
        s.hasKey k = true) →
      (j.make_decision_irac q pc ch t).2.2 = .ok respI) ∧
    (∀ s, respI.hasKey "decision" = true →
      validLabels.contains (respI.getD "decision" Json.null) = true →
      respI.lookup "synthesis" = some (Json.obj s) →
      (∃ k ∈ ["issue", "rule", "application", "conclusion"],
        s.hasKey k = false) →
      ∃ k, (j.make_decision_irac q pc ch t).2.2 =
        .error (.missingSynthesisComponent k respI)) ∧
    (∀ e, (j.make_decision_irac q pc ch t).2.2 = .error e →
      e.isConsistencyError = false ∧ e.isSequenceError = false) := by
  refine ⟨?_, ?_, ?_, ?_, ?_, ?_, ?_, ?_, ?_, ?_⟩
  · intro hd
    simp [Judge.make_decision, GroqClient.generate_json, hV, hd]
  · intro hd hv
    have hv' : respV.getD "decision" Json.null ∉ validLabels := by
      simpa using hv
    simp [Judge.make_decision, GroqClient.generate_json, hV, hd, hv']
  · intro hd hv
    have hv' : respV.getD "decision" Json.null ∈ validLabels := by
      simpa using hv
    simp [Judge.make_decision, GroqClient.generate_json, hV, hd, hv']
  · intro e he
    simp only [Judge.make_decision, GroqClient.generate_json, hV] at he
    cases hd : respV.hasKey "decision" with
    | false =>
        simp only [hd, Bool.not_false, if_true, Except.error.injEq] at he
        exact he ▸ ⟨rfl, rfl⟩
    | true =>
        cases hv : validLabels.contains (respV.getD "decision" Json.null) with
        | false =>
            have hv' : respV.getD "decision" Json.null ∉ validLabels := by
              simpa using hv
            have he' : Err.invalidDecisionChoice
                (respV.getD "decision" Json.null) = e := by
              simpa [hd, hv'] using he
            exact he' ▸ ⟨rfl, rfl⟩
        | true =>
            have hv' : respV.getD "decision" Json.null ∈ validLabels := by
              simpa using hv
            simp [hd, hv'] at he
  · intro hd
    simp [Judge.make_decision_irac, GroqClient.generate_json, hI, hd]
  · intro hd hv
    have hv' : respI.getD "decision" Json.null ∉ validLabels := by
      simpa using hv
    simp [Judge.make_decision_irac, GroqClient.generate_json, hI, hd, hv']
  · intro hd hv hs
    have hv' : respI.getD "decision" Json.null ∈ validLabels := by
      simpa using hv
    simp [Judge.make_decision_irac, GroqClient.generate_json, hI, hd, hv', hs]
  · intro s hd hv hs hall
    have hv' : respI.getD "decision" Json.null ∈ validLabels := by
      simpa using hv
    have hsk : respI.hasKey "synthesis" = true := by simp [Dict.hasKey, hs]
    have hgd : respI.getD "synthesis" (Json.obj .nil) = Json.obj s := by
      simp [Dict.getD, hs]
    have hck := checkKeysIn_obj_ok
      ["issue", "rule", "application", "conclusion"] s
      (fun k => Err.missingSynthesisComponent k respI) hall
    simp [Judge.make_decision_irac, GroqClient.generate_json, hI, hd, hv',
      hsk, hgd, hck]
  · intro s hd hv hs hmiss
    have hv' : respI.getD "decision" Json.null ∈ validLabels := by
      simpa using hv
    have hsk : respI.hasKey "synthesis" = true := by simp [Dict.hasKey, hs]
    have hgd : respI.getD "synthesis" (Json.obj .nil) = Json.obj s := by
      simp [Dict.getD, hs]
    obtain ⟨k, hkmem, hkf, heq⟩ := checkKeysIn_obj_missing
      ["issue", "rule", "application", "conclusion"] s
      (fun k => Err.missingSynthesisComponent k respI) hmiss
    refine ⟨k, ?_⟩
    simp [Judge.make_decision_irac, GroqClient.generate_json, hI, hd, hv',
      hsk, hgd, heq]
  · intro e he
    simp only [Judge.make_decision_irac, GroqClient.generate_json, hI] at he
    cases hd : respI.hasKey "decision" with
    | false =>
        simp only [hd, Bool.not_false, if_true, Except.error.injEq] at he
        exact he ▸ ⟨rfl, rfl⟩
    | true =>
        cases hv : validLabels.contains (respI.getD "decision" Json.null) with
        | false =>
            have hv' : respI.getD "decision" Json.null ∉ validLabels := by
              simpa using hv
            have he' : Err.invalidDecisionChoice
                (respI.getD "decision" Json.null) = e := by
              simpa [hd, hv'] using he
            exact he' ▸ ⟨rfl, rfl⟩
        | true =>
            have hv' : respI.getD "decision" Json.null ∈ validLabels := by
              simpa using hv
            cases hsk : respI.hasKey "synthesis" with
            | false =>
                have he' : Err.missingSynthesis respI = e := by
                  simpa [hd, hv', hsk] using he
                exact he' ▸ ⟨rfl, rfl⟩
            | true =>
                cases hck : checkKeysIn
                    ["issue", "rule", "application", "conclusion"]
                    (respI.getD "synthesis" (Json.obj .nil))
                    (fun k => Err.missingSynthesisComponent k respI) with
                | ok u => simp [hd, hv', hsk, hck] at he
                | error e2 =>
                    have he2 : e2 = e := by
                      simpa [hd, hv', hsk, hck] using he
                    rcases checkKeysIn_error_cases _ _ _ e2 hck with
                      ⟨k, _, hek⟩ | ht
                    · subst he2; subst hek; exact ⟨rfl, rfl⟩
                    · subst he2; subst ht; exact ⟨rfl, rfl⟩

/-- C2 witness: a payload with decision A, no synthesis makes the vanilla
call succeed while a payload carrying decision A and a complete synthesis
makes both variants succeed. -/
theorem C2_vanilla_irac_decision_validation_witness :
    ((Judge.mk (constClient respJudgeIracOk)).make_decision
        "q" "ctx" [] Dict.nil).2.2 = .ok respJudgeIracOk ∧
    ((Judge.mk (constClient respJudgeIracOk)).make_decision_irac
        "q" "ctx" [] Dict.nil).2.2 = .ok respJudgeIracOk :=
  ⟨(C2_vanilla_irac_decision_validation
      (Judge.mk (constClient respJudgeIracOk)) "q" "ctx" [] Dict.nil
      respJudgeIracOk respJudgeIracOk rfl rfl).2.2.1 rfl rfl,
   (C2_vanilla_irac_decision_validation
      (Judge.mk (constClient respJudgeIracOk)) "q" "ctx" [] Dict.nil
      respJudgeIracOk respJudgeIracOk rfl rfl).2.2.2.2.2.2.2.1 iracFull
      rfl rfl rfl (by decide)⟩

/-- C5 counterexample: assigning position A at the vanilla opening does not
force the resulting OpeningArgument to carry position A — the code performs
no cross-check of the collaborator response position against the assigned
one, so a collaborator answering with position B makes the call succeed with
position B both in the returned payload and in the stored state. -/
theorem C5_counterexample :
    ((Debater.mkNew (constClient respPosB) "DebaterX").generate_opening
        "q" "ctx" [] (some "A")).2.2 = .ok respPosB ∧
    ((Debater.mkNew (constClient respPosB) "DebaterX").generate_opening
        "q" "ctx" [] (some "A")).1.position = some (Json.str "B") ∧
    respPosB.getD "position" Json.null = Json.str "B" ∧
    Json.str "B" ≠ Json.str "A" :=
  ⟨rfl, rfl, rfl, by decide⟩

/-- C5 (amended): for every label in A, B, C, D, when the collaborator
response to the assigned-position vanilla opening prompt itself carries that
label as its position, a successful vanilla opening call returns an
OpeningArgument whose position equals the label and stores that label as the
Debater position; the IRAC opening never succeeds in the given source (every
call fails with ImportError at line 120), so for that variant the claim
holds only vacuously. -/
theorem C5_opening_position_matches_response
    (d : Debater) (q pc : String) (ch : List String) (l : String)
    (respV : Dict)
    (_hl : l ∈ ["A", "B", "C", "D"])
    (hrV : d.client.respond (Prompt.debaterOpening q pc ch (some l)) 750 =
      respV)
    (hpV : respV.lookup "position" = some (Json.str l)) :
    (∀ out, (d.generate_opening q pc ch (some l)).2.2 = .ok out →
      out.getD "position" Json.null = Json.str l ∧
      (d.generate_opening q pc ch (some l)).1.position =
        some (Json.str l)) ∧
    (∀ out, (d.generate_opening_irac q pc ch (some l)).2.2 ≠ .ok out) := by
  constructor
  · intro out he
    simp only [Debater.generate_opening, GroqClient.generate_json, hrV]
      at he ⊢
    cases hc : (!(respV.hasKey "position") || !(respV.hasKey "argument")) with
    | true => simp [hc] at he
    | false =>
        simp only [hc, Bool.false_eq_true, if_false, Except.ok.injEq] at he
        subst he
        simp [hc, Dict.getD, hpV]
  · intro out he
    simp [Debater.generate_opening_irac] at he

/-- C5 witness: with a collaborator echoing the assigned position A, the
vanilla opening succeeds with position A returned and stored, while the IRAC
opening does not return that payload (it fails at the import). -/
theorem C5_opening_position_matches_response_witness :
    (respPosA.getD "position" Json.null = Json.str "A" ∧
      ((Debater.mkNew (constClient respPosA) "DebaterX").generate_opening
        "q" "ctx" [] (some "A")).1.position = some (Json.str "A")) ∧
    ((Debater.mkNew (constClient respPosA) "DebaterX").generate_opening_irac
        "q" "ctx" [] (some "A")).2.2 ≠ .ok respPosA :=
  ⟨(C5_opening_position_matches_response
      (Debater.mkNew (constClient respPosA) "DebaterX") "q" "ctx" [] "A"
      respPosA (by decide) rfl rfl).1 respPosA rfl,
   (C5_opening_position_matches_response
      (Debater.mkNew (constClient respPosA) "DebaterX") "q" "ctx" [] "A"
      respPosA (by decide) rfl rfl).2 respPosA⟩

/-- C10 witness: a response with only a position field makes the vanilla
opening fail with the SchemaError raise site. -/
theorem C10_vanilla_opening_requires_argument_witness :
    ((Debater.mkNew (constClient respPosOnly) "DebaterX").generate_opening
      "q" "ctx" [] none).2.2 = .error (.invalidDebaterResponse respPosOnly) :=
  (C10_vanilla_opening_requires_argument _ "q" "ctx" [] none respPosOnly
    rfl rfl rfl).1

end LegalMAD
